import Mathlib

/-!
Shallow embedding of the jujushell configuration loader/validator.

The repository has two revisions of the `config` package: an extended schema
(src/config/config.go) and a minimal schema (src/unnamed/part_000), plus the
server bootstrap (src/unnamed/part_001).  Each is embedded in its own
namespace.  File-system and YAML effects of `Read` are passed in as explicit
outcomes (open error, read error, parse result), mirroring the sequential
control flow of the Go function.
-/

/-- Validation failures produced by `validate`, one constructor per error
message in the source (`missing fields: ...`, the Let's Encrypt TLS conflict,
the Let's Encrypt port restriction, the negative session timeout). -/
inductive ValidationError where
  | missingFields (fields : List String)
  | conflictingTLSConfig
  | portMismatchForDNS
  | negativeTimeout
deriving Repr, DecidableEq

namespace extended

/-- Load failures produced by `Read`: errors opening/reading the file
(`cannot open %q` / `cannot read %q`), YAML decode errors (`cannot parse %q`),
and validation errors (`invalid configuration at %q`).  Each carries the
resource path, as the Go code attaches via errgo.Notef. -/
inductive LoadError where
  | ioFailure (resource cause : String)
  | decodeFailure (resource cause : String)
  | invalidConfig (resource : String) (err : ValidationError)
deriving Repr, DecidableEq

/-- The resource identifier (file path) carried by a load error. -/
def LoadError.resource : LoadError → String
  | .ioFailure r _ => r
  | .decodeFailure r _ => r
  | .invalidConfig r _ => r

/-- Config from src/config/config.go (extended schema), fields in the
declaration order of the Go struct.  Go strings and slices default to their
zero values; `LogLevel` (a zapcore.Level integer) and the int fields are
modelled as `Int`. -/
structure Config where
  allowedUsers : List String := []
  dnsName : String := ""
  imageName : String := ""
  jujuAddrs : List String := []
  jujuCert : String := ""
  logLevel : Int := 0
  lxdSocketPath : String := ""
  port : Int := 0
  profiles : List String := []
  sessionTimeout : Int := 0
  tlsCert : String := ""
  tlsKey : String := ""
  welcomeMessage : String := ""
deriving Repr, DecidableEq

/-- The `missing` list accumulated by `validate` (src/config/config.go lines
76-91): one append per empty required field, in the order the code checks
them.  -/
def missingList (c : Config) : List String :=
  (if c.imageName = "" then ["image-name"] else []) ++
  (if c.jujuAddrs.length = 0 then ["juju-addrs"] else []) ++
  (if c.lxdSocketPath = "" then ["lxd-socket-path"] else []) ++
  (if c.port ≤ 0 then ["port"] else []) ++
  (if c.profiles.length = 0 then ["profiles"] else [])

/-- validate from src/config/config.go lines 75-107: report all missing
required fields first; then the Let's Encrypt cross-field checks (TLS
conflict, then port 443); then the negative session timeout check. -/
def validate (c : Config) : Option ValidationError :=
  if missingList c ≠ [] then some (.missingFields (missingList c))
  else if c.dnsName ≠ "" ∧ (c.tlsCert ≠ "" ∨ c.tlsKey ≠ "") then
    some .conflictingTLSConfig
  else if c.dnsName ≠ "" ∧ c.port ≠ 443 then
    some .portMismatchForDNS
  else if c.sessionTimeout < 0 then
    some .negativeTimeout
  else none

/-- Read from src/config/config.go lines 53-72, with the I/O and YAML
outcomes passed as explicit parameters: `openErr`/`readErr` are the failures
of os.Open and ioutil.ReadAll (if any) and `parsed` is the yaml.Unmarshal
outcome.  Returns the same (value, error) pair shape as the Go function. -/
def Read (path : String) (openErr readErr : Option String)
    (parsed : Except String Config) : Option Config × Option LoadError :=
  match openErr with
  | some e => (none, some (.ioFailure path e))
  | none =>
    match readErr with
    | some e => (none, some (.ioFailure path e))
    | none =>
      match parsed with
      | .error e => (none, some (.decodeFailure path e))
      | .ok c =>
        match validate c with
        | some verr => (none, some (.invalidConfig path verr))
        | none => (some c, none)

/-- The required fields of the extended schema in struct-declaration order,
each paired with its emptiness test (the zero-value test the code performs). -/
def requiredFields : List (String × (Config → Bool)) :=
  [("image-name", fun c => decide (c.imageName = "")),
   ("juju-addrs", fun c => decide (c.jujuAddrs.length = 0)),
   ("lxd-socket-path", fun c => decide (c.lxdSocketPath = "")),
   ("port", fun c => decide (c.port ≤ 0)),
   ("profiles", fun c => decide (c.profiles.length = 0))]

/-- The set of empty required fields of a config, listed in
schema-declaration order (specification-side characterization). -/
def missingOf (c : Config) : List String :=
  (requiredFields.filter fun p => p.2 c).map Prod.fst

end extended

namespace minimal

/-- Load failures of the minimal-schema Read (src/unnamed/part_000), same
shape as the extended variant. -/
inductive LoadError where
  | ioFailure (resource cause : String)
  | decodeFailure (resource cause : String)
  | invalidConfig (resource : String) (err : ValidationError)
deriving Repr, DecidableEq

/-- Config from src/unnamed/part_000 (minimal schema), fields in the
declaration order of the Go struct. -/
structure Config where
  imageName : String := ""
  jujuAddrs : List String := []
  jujuCert : String := ""
  logLevel : Int := 0
  port : Int := 0
  tlsCert : String := ""
  tlsKey : String := ""
deriving Repr, DecidableEq

/-- The `missing` list accumulated by the minimal validate (src/unnamed/
part_000 lines 59-71), in the order the code checks the fields. -/
def missingList (c : Config) : List String :=
  (if c.imageName = "" then ["image-name"] else []) ++
  (if c.jujuAddrs.length = 0 then ["juju-addrs"] else []) ++
  (if c.jujuCert = "" then ["juju-cert"] else []) ++
  (if c.port ≤ 0 then ["port"] else [])

/-- validate from src/unnamed/part_000 lines 58-76: only the missing-field
batch, no cross-field checks. -/
def validate (c : Config) : Option ValidationError :=
  if missingList c ≠ [] then some (.missingFields (missingList c)) else none

/-- Read from src/unnamed/part_000 lines 36-55, effects passed as explicit
outcomes exactly as in the extended variant. -/
def Read (path : String) (openErr readErr : Option String)
    (parsed : Except String Config) : Option Config × Option LoadError :=
  match openErr with
  | some e => (none, some (.ioFailure path e))
  | none =>
    match readErr with
    | some e => (none, some (.ioFailure path e))
    | none =>
      match parsed with
      | .error e => (none, some (.decodeFailure path e))
      | .ok c =>
        match validate c with
        | some verr => (none, some (.invalidConfig path verr))
        | none => (some c, none)

/-- The required fields of the minimal schema in struct-declaration order,
each paired with its emptiness test. -/
def requiredFields : List (String × (Config → Bool)) :=
  [("image-name", fun c => decide (c.imageName = "")),
   ("juju-addrs", fun c => decide (c.jujuAddrs.length = 0)),
   ("juju-cert", fun c => decide (c.jujuCert = "")),
   ("port", fun c => decide (c.port ≤ 0))]

/-- The set of empty required fields of a minimal-schema config, in
schema-declaration order (specification-side characterization). -/
def missingOf (c : Config) : List String :=
  (requiredFields.filter fun p => p.2 c).map Prod.fst

end minimal

namespace jujushell

/-- Params from src/unnamed/part_001 lines 22-29: exactly the three fields
handed to the route-registration collaborator. -/
structure Params where
  imageName : String
  jujuAddrs : List String
  jujuCert : String
deriving Repr, DecidableEq

/-- NewServer from src/unnamed/part_001 lines 13-19.  The route-registration
collaborator api.Register is an abstract parameter: it receives the new mux
together with the addresses, certificate, and image name, and either fails
or yields the populated handler.  NewServer returns what registration
produced, exactly as the Go code returns the mux or the error. -/
def NewServer {Handler : Type} (register : List String → String → String → Except String Handler)
    (p : Params) : Except String Handler :=
  register p.jujuAddrs p.jujuCert p.imageName

end jujushell

/-! Helper lemmas shared by the claim theorems. -/

/-- The list accumulated by the extended validate equals the
schema-declaration-order filter of empty required fields. -/
theorem extended.missingList_eq_missingOf_ext (c : extended.Config) :
    extended.missingList c = extended.missingOf c := by
  by_cases h1 : c.imageName = "" <;>
  by_cases h2 : c.jujuAddrs.length = 0 <;>
  by_cases h3 : c.lxdSocketPath = "" <;>
  by_cases h4 : c.port ≤ 0 <;>
  by_cases h5 : c.profiles.length = 0 <;>
  simp [extended.missingList, extended.missingOf, extended.requiredFields,
    List.filter, h1, h2, h3, h4, h5]

/-- The extended missing-field list is empty exactly when every required
field is populated. -/
theorem extended.missingOf_eq_nil_iff_ext (c : extended.Config) :
    extended.missingOf c = [] ↔
      (c.imageName ≠ "" ∧ c.jujuAddrs ≠ [] ∧ c.lxdSocketPath ≠ "" ∧
        0 < c.port ∧ c.profiles ≠ []) := by
  rw [← extended.missingList_eq_missingOf_ext]
  by_cases h1 : c.imageName = "" <;>
  by_cases h2 : c.jujuAddrs.length = 0 <;>
  by_cases h3 : c.lxdSocketPath = "" <;>
  by_cases h4 : c.port ≤ 0 <;>
  by_cases h5 : c.profiles.length = 0 <;>
  simp_all [extended.missingList, List.length_eq_zero, Int.not_le, Int.not_lt]

/-- Once every required field is populated, the extended validate reduces to
the cross-field check chain. -/
theorem extended.validate_eq_cross (c : extended.Config)
    (h : extended.missingOf c = []) :
    extended.validate c =
      (if c.dnsName ≠ "" ∧ (c.tlsCert ≠ "" ∨ c.tlsKey ≠ "") then
        some .conflictingTLSConfig
      else if c.dnsName ≠ "" ∧ c.port ≠ 443 then
        some .portMismatchForDNS
      else if c.sessionTimeout < 0 then
        some .negativeTimeout
      else none) := by
  rw [extended.validate, extended.missingList_eq_missingOf_ext, h]
  simp

/-- The list accumulated by the minimal validate equals the
schema-declaration-order filter of empty required fields. -/
theorem minimal.missingList_eq_missingOf_min (c : minimal.Config) :
    minimal.missingList c = minimal.missingOf c := by
  by_cases h1 : c.imageName = "" <;>
  by_cases h2 : c.jujuAddrs.length = 0 <;>
  by_cases h3 : c.jujuCert = "" <;>
  by_cases h4 : c.port ≤ 0 <;>
  simp [minimal.missingList, minimal.missingOf, minimal.requiredFields,
    List.filter, h1, h2, h3, h4]

/-- The minimal missing-field list is empty exactly when every required
field is populated. -/
theorem minimal.missingOf_eq_nil_iff_min (c : minimal.Config) :
    minimal.missingOf c = [] ↔
      (c.imageName ≠ "" ∧ c.jujuAddrs ≠ [] ∧ c.jujuCert ≠ "" ∧ 0 < c.port) := by
  rw [← minimal.missingList_eq_missingOf_min]
  by_cases h1 : c.imageName = "" <;>
  by_cases h2 : c.jujuAddrs.length = 0 <;>
  by_cases h3 : c.jujuCert = "" <;>
  by_cases h4 : c.port ≤ 0 <;>
  simp_all [minimal.missingList, List.length_eq_zero, Int.not_le, Int.not_lt]

/-- A config accepted by the extended validate has no empty required field. -/
theorem extended.validate_none_missing_ext (c : extended.Config)
    (h : extended.validate c = none) : extended.missingOf c = [] := by
  rw [← extended.missingList_eq_missingOf_ext]
  by_cases hm : extended.missingList c = []
  · exact hm
  · rw [extended.validate, if_pos hm] at h
    cases h

/-- A config accepted by the minimal validate has no empty required field. -/
theorem minimal.validate_none_missing_min (c : minimal.Config)
    (h : minimal.validate c = none) : minimal.missingOf c = [] := by
  rw [← minimal.missingList_eq_missingOf_min]
  by_cases hm : minimal.missingList c = []
  · exact hm
  · rw [minimal.validate, if_pos hm] at h
    cases h

/-- C1: in both schema variants, whenever at least one required field is
empty/zero, validate fails with MissingFields whose list is exactly the
empty required fields in schema-declaration order; in particular no
cross-field error is ever returned while a required field is missing. -/
theorem C1_missing_fields_dominate :
    (∀ c : extended.Config, extended.missingOf c ≠ [] →
      extended.validate c = some (.missingFields (extended.missingOf c))) ∧
    (∀ c : minimal.Config, minimal.missingOf c ≠ [] →
      minimal.validate c = some (.missingFields (minimal.missingOf c))) := by
  constructor
  · intro c h
    rw [extended.validate, extended.missingList_eq_missingOf_ext, if_pos h]
  · intro c h
    rw [minimal.validate, minimal.missingList_eq_missingOf_min, if_pos h]

/-- C1 witness: a config missing image name, socket path, and profiles
(extended) and an all-empty config (minimal), evaluated concretely. -/
theorem C1_missing_fields_dominate_witness :
    (extended.missingOf { port := 443, jujuAddrs := ["a"] } ≠ [] ∧
      extended.validate { port := 443, jujuAddrs := ["a"] } =
        some (.missingFields
          (extended.missingOf { port := 443, jujuAddrs := ["a"] }))) ∧
    (minimal.missingOf {} ≠ [] ∧
      minimal.validate {} = some (.missingFields (minimal.missingOf {}))) :=
  ⟨⟨by decide, C1_missing_fields_dominate.1 { port := 443, jujuAddrs := ["a"] }
      (by decide)⟩,
   ⟨by decide, C1_missing_fields_dominate.2 {} (by decide)⟩⟩

/-- C3: every config returned successfully by Read satisfies the schema
invariants: non-empty image, at least one controller address, positive
port, and (extended) non-empty profiles and LXD socket path, or (minimal)
non-empty CA certificate. -/
theorem C3_schema_invariants :
    (∀ (path : String) (oe re : Option String)
        (pr : Except String extended.Config) (c : extended.Config),
      extended.Read path oe re pr = (some c, none) →
      c.imageName ≠ "" ∧ c.jujuAddrs ≠ [] ∧ 0 < c.port ∧
        c.profiles ≠ [] ∧ c.lxdSocketPath ≠ "") ∧
    (∀ (path : String) (oe re : Option String)
        (pr : Except String minimal.Config) (c : minimal.Config),
      minimal.Read path oe re pr = (some c, none) →
      c.imageName ≠ "" ∧ c.jujuAddrs ≠ [] ∧ 0 < c.port ∧ c.jujuCert ≠ "") := by
  constructor
  · intro path oe re pr c h
    rcases oe with _ | e
    · rcases re with _ | e
      · rcases pr with e | c'
        · simp [extended.Read] at h
        · rcases hv : extended.validate c' with _ | verr
          · rw [extended.Read] at h
            simp only [hv, Prod.mk.injEq, Option.some.injEq] at h
            obtain ⟨hc, -⟩ := h
            subst hc
            have hm := extended.validate_none_missing_ext c' hv
            rw [extended.missingOf_eq_nil_iff_ext] at hm
            exact ⟨hm.1, hm.2.1, hm.2.2.2.1, hm.2.2.2.2, hm.2.2.1⟩
          · rw [extended.Read] at h
            simp [hv] at h
      · simp [extended.Read] at h
    · simp [extended.Read] at h
  · intro path oe re pr c h
    rcases oe with _ | e
    · rcases re with _ | e
      · rcases pr with e | c'
        · simp [minimal.Read] at h
        · rcases hv : minimal.validate c' with _ | verr
          · rw [minimal.Read] at h
            simp only [hv, Prod.mk.injEq, Option.some.injEq] at h
            obtain ⟨hc, -⟩ := h
            subst hc
            have hm := minimal.validate_none_missing_min c' hv
            rw [minimal.missingOf_eq_nil_iff_min] at hm
            exact ⟨hm.1, hm.2.1, hm.2.2.2, hm.2.2.1⟩
          · rw [minimal.Read] at h
            simp [hv] at h
      · simp [minimal.Read] at h
    · simp [minimal.Read] at h

/-- C3 witness: concrete successful loads through both Read variants, with
the invariants evaluated on the returned configs. -/
theorem C3_schema_invariants_witness :
    (extended.Read "cfg.yaml" none none
        (.ok { imageName := "ubuntu", jujuAddrs := ["10.0.0.1:17070"],
               lxdSocketPath := "/s", port := 8080, profiles := ["default"] }) =
      (some { imageName := "ubuntu", jujuAddrs := ["10.0.0.1:17070"],
              lxdSocketPath := "/s", port := 8080, profiles := ["default"] },
       none) ∧
      ("ubuntu" : String) ≠ "" ∧ (["10.0.0.1:17070"] : List String) ≠ [] ∧
        (0 : Int) < 8080 ∧ (["default"] : List String) ≠ [] ∧
        ("/s" : String) ≠ "") ∧
    (minimal.Read "cfg.yaml" none none
        (.ok { imageName := "ubuntu", jujuAddrs := ["10.0.0.1:17070"],
               jujuCert := "cert", port := 17070 }) =
      (some { imageName := "ubuntu", jujuAddrs := ["10.0.0.1:17070"],
              jujuCert := "cert", port := 17070 },
       none) ∧
      ("ubuntu" : String) ≠ "" ∧ (["10.0.0.1:17070"] : List String) ≠ [] ∧
        (0 : Int) < 17070 ∧ ("cert" : String) ≠ "") :=
  ⟨⟨by decide,
    C3_schema_invariants.1 "cfg.yaml" none none
      (.ok { imageName := "ubuntu", jujuAddrs := ["10.0.0.1:17070"],
             lxdSocketPath := "/s", port := 8080, profiles := ["default"] })
      { imageName := "ubuntu", jujuAddrs := ["10.0.0.1:17070"],
        lxdSocketPath := "/s", port := 8080, profiles := ["default"] }
      (by decide)⟩,
   ⟨by decide,
    C3_schema_invariants.2 "cfg.yaml" none none
      (.ok { imageName := "ubuntu", jujuAddrs := ["10.0.0.1:17070"],
             jujuCert := "cert", port := 17070 })
      { imageName := "ubuntu", jujuAddrs := ["10.0.0.1:17070"],
        jujuCert := "cert", port := 17070 }
      (by decide)⟩⟩

/-- C4: with every required field populated and a non-negative session
timeout, the extended validate fails with ConflictingTLSConfig exactly when
the DNS name is non-empty and some manual TLS material is supplied. -/
theorem C4_conflicting_tls_iff (c : extended.Config)
    (hm : extended.missingOf c = []) (ht : 0 ≤ c.sessionTimeout) :
    extended.validate c = some .conflictingTLSConfig ↔
      (c.dnsName ≠ "" ∧ (c.tlsCert ≠ "" ∨ c.tlsKey ≠ "")) := by
  have ht' : ¬ c.sessionTimeout < 0 := by omega
  rw [extended.validate_eq_cross c hm]
  by_cases h1 : c.dnsName = "" <;>
  by_cases h2 : c.tlsCert = "" <;>
  by_cases h3 : c.tlsKey = "" <;>
    simp [h1, h2, h3, ht']

/-- C4 witness: a fully-populated config with both a DNS name and a manual
TLS key, on which the equivalence is instantiated. -/
theorem C4_conflicting_tls_iff_witness :
    extended.missingOf
        { imageName := "ubuntu", jujuAddrs := ["a"], lxdSocketPath := "/s",
          port := 443, profiles := ["default"], dnsName := "shell.example.com",
          tlsKey := "key" } = [] ∧
      (0 : Int) ≤ 0 ∧
      (extended.validate
          { imageName := "ubuntu", jujuAddrs := ["a"], lxdSocketPath := "/s",
            port := 443, profiles := ["default"],
            dnsName := "shell.example.com", tlsKey := "key" } =
        some .conflictingTLSConfig ↔
        (("shell.example.com" : String) ≠ "" ∧
          (("" : String) ≠ "" ∨ ("key" : String) ≠ ""))) :=
  ⟨by decide, by decide,
   C4_conflicting_tls_iff
     { imageName := "ubuntu", jujuAddrs := ["a"], lxdSocketPath := "/s",
       port := 443, profiles := ["default"], dnsName := "shell.example.com",
       tlsKey := "key" }
     (by decide) (by decide)⟩

/-- C10: after the missing-field batch, the cross-field checks fire in a
fixed order: a DNS/TLS conflict is reported before any port-443 or timeout
violation, and a port-443 violation before any timeout violation. -/
theorem C10_cross_field_precedence (c : extended.Config)
    (hm : extended.missingOf c = []) (hd : c.dnsName ≠ "") :
    ((c.tlsCert ≠ "" ∨ c.tlsKey ≠ "") →
      extended.validate c = some .conflictingTLSConfig) ∧
    (c.tlsCert = "" → c.tlsKey = "" → c.port ≠ 443 →
      extended.validate c = some .portMismatchForDNS) := by
  rw [extended.validate_eq_cross c hm]
  constructor
  · intro h
    rw [if_pos ⟨hd, h⟩]
  · intro h2 h3 hp
    rw [if_neg (by simp [h2, h3]), if_pos ⟨hd, hp⟩]

/-- C10 witness: a config carrying all three cross-field violations at once
(DNS name with TLS key, port 8080, negative timeout) yields the TLS
conflict; with the TLS material removed it yields the port mismatch. -/
theorem C10_cross_field_precedence_witness :
    extended.validate
        { imageName := "ubuntu", jujuAddrs := ["a"], lxdSocketPath := "/s",
          port := 8080, profiles := ["default"],
          dnsName := "shell.example.com", tlsKey := "key",
          sessionTimeout := -1 } = some .conflictingTLSConfig ∧
    extended.validate
        { imageName := "ubuntu", jujuAddrs := ["a"], lxdSocketPath := "/s",
          port := 8080, profiles := ["default"],
          dnsName := "shell.example.com", sessionTimeout := -1 } =
      some .portMismatchForDNS :=
  ⟨(C10_cross_field_precedence
      { imageName := "ubuntu", jujuAddrs := ["a"], lxdSocketPath := "/s",
        port := 8080, profiles := ["default"],
        dnsName := "shell.example.com", tlsKey := "key",
        sessionTimeout := -1 } (by decide) (by decide)).1
      (Or.inr (by decide)),
   (C10_cross_field_precedence
      { imageName := "ubuntu", jujuAddrs := ["a"], lxdSocketPath := "/s",
        port := 8080, profiles := ["default"],
        dnsName := "shell.example.com", sessionTimeout := -1 } (by decide)
      (by decide)).2 (by decide) (by decide) (by decide)⟩

/-- C2 counterexample: a config with every required field populated and an
empty DNS name is still rejected when the session timeout is negative, so
validate does not succeed on all such inputs as the claim states. -/
theorem C2_identity_counterexample :
    extended.missingOf
        { imageName := "ubuntu", jujuAddrs := ["10.0.0.1:17070"],
          lxdSocketPath := "/s", port := 8080, profiles := ["default"],
          sessionTimeout := -1 } = [] ∧
    (extended.Config.dnsName
        { imageName := "ubuntu", jujuAddrs := ["10.0.0.1:17070"],
          lxdSocketPath := "/s", port := 8080, profiles := ["default"],
          sessionTimeout := -1 }) = "" ∧
    extended.validate
        { imageName := "ubuntu", jujuAddrs := ["10.0.0.1:17070"],
          lxdSocketPath := "/s", port := 8080, profiles := ["default"],
          sessionTimeout := -1 } = some .negativeTimeout := by decide

/-- C2 (amended): with every required field populated, an empty DNS name,
and a non-negative session timeout, validate succeeds and Read promotes the
parsed config unchanged (field-for-field identity). -/
theorem C2_identity_amended (c : extended.Config)
    (hm : extended.missingOf c = []) (hd : c.dnsName = "")
    (ht : 0 ≤ c.sessionTimeout) :
    extended.validate c = none ∧
      ∀ path : String, extended.Read path none none (.ok c) = (some c, none) := by
  have hv : extended.validate c = none := by
    rw [extended.validate_eq_cross c hm, if_neg (by simp [hd]),
      if_neg (by simp [hd]), if_neg (by omega)]
  exact ⟨hv, fun path => by rw [extended.Read]; simp [hv]⟩

/-- C2 (amended) witness: a concrete fully-populated config with no DNS
name and zero timeout, promoted unchanged by Read. -/
theorem C2_identity_amended_witness :
    extended.missingOf
        { imageName := "ubuntu", jujuAddrs := ["10.0.0.1:17070"],
          lxdSocketPath := "/s", port := 8080, profiles := ["default"] } = [] ∧
    extended.validate
        { imageName := "ubuntu", jujuAddrs := ["10.0.0.1:17070"],
          lxdSocketPath := "/s", port := 8080, profiles := ["default"] } =
      none ∧
    extended.Read "cfg.yaml" none none
        (.ok { imageName := "ubuntu", jujuAddrs := ["10.0.0.1:17070"],
               lxdSocketPath := "/s", port := 8080, profiles := ["default"] }) =
      (some { imageName := "ubuntu", jujuAddrs := ["10.0.0.1:17070"],
              lxdSocketPath := "/s", port := 8080, profiles := ["default"] },
       none) :=
  ⟨by decide,
   (C2_identity_amended
      { imageName := "ubuntu", jujuAddrs := ["10.0.0.1:17070"],
        lxdSocketPath := "/s", port := 8080, profiles := ["default"] }
      (by decide) (by decide) (by decide)).1,
   (C2_identity_amended
      { imageName := "ubuntu", jujuAddrs := ["10.0.0.1:17070"],
        lxdSocketPath := "/s", port := 8080, profiles := ["default"] }
      (by decide) (by decide) (by decide)).2 "cfg.yaml"⟩

/-- C5 counterexample: a config with every required field populated, a DNS
name, a positive port different from 443, and a manual TLS key is rejected
with ConflictingTLSConfig, not PortMismatchForDNS, so the claim fails as
stated. -/
theorem C5_port_mismatch_counterexample :
    extended.missingOf
        { imageName := "ubuntu", jujuAddrs := ["10.0.0.1:17070"],
          lxdSocketPath := "/s", port := 8080, profiles := ["default"],
          dnsName := "shell.example.com", tlsKey := "key" } = [] ∧
    extended.validate
        { imageName := "ubuntu", jujuAddrs := ["10.0.0.1:17070"],
          lxdSocketPath := "/s", port := 8080, profiles := ["default"],
          dnsName := "shell.example.com", tlsKey := "key" } =
      some .conflictingTLSConfig ∧
    extended.validate
        { imageName := "ubuntu", jujuAddrs := ["10.0.0.1:17070"],
          lxdSocketPath := "/s", port := 8080, profiles := ["default"],
          dnsName := "shell.example.com", tlsKey := "key" } ≠
      some .portMismatchForDNS := by decide

/-- C5 (amended): with every required field populated, a non-empty DNS
name, empty manual TLS certificate and key, and a port different from 443,
validate fails with PortMismatchForDNS. -/
theorem C5_port_mismatch_amended (c : extended.Config)
    (hm : extended.missingOf c = []) (hd : c.dnsName ≠ "")
    (h2 : c.tlsCert = "") (h3 : c.tlsKey = "") (hp : c.port ≠ 443) :
    extended.validate c = some .portMismatchForDNS := by
  rw [extended.validate_eq_cross c hm, if_neg (by simp [h2, h3]),
    if_pos ⟨hd, hp⟩]

/-- C5 (amended) witness: the spec's own scenario (DNS name with port
8080, no manual TLS material). -/
theorem C5_port_mismatch_amended_witness :
    extended.validate
        { imageName := "ubuntu", jujuAddrs := ["10.0.0.1:17070"],
          lxdSocketPath := "/var/snap/lxd/common/lxd/unix.socket",
          port := 8080, profiles := ["default"],
          dnsName := "shell.example.com" } = some .portMismatchForDNS :=
  C5_port_mismatch_amended
    { imageName := "ubuntu", jujuAddrs := ["10.0.0.1:17070"],
      lxdSocketPath := "/var/snap/lxd/common/lxd/unix.socket",
      port := 8080, profiles := ["default"], dnsName := "shell.example.com" }
    (by decide) (by decide) (by decide) (by decide) (by decide)

/-- C6 counterexample: a config with a strictly negative session timeout
but missing required fields is rejected with MissingFields, not
NegativeTimeout, so the claimed unconditional equivalence fails. -/
theorem C6_negative_timeout_counterexample :
    (extended.Config.sessionTimeout { sessionTimeout := -5 }) < 0 ∧
    extended.validate { sessionTimeout := -5 } =
      some (.missingFields
        ["image-name", "juju-addrs", "lxd-socket-path", "port", "profiles"]) ∧
    extended.validate { sessionTimeout := -5 } ≠ some .negativeTimeout := by
  decide

/-- C6 (amended): validate reports NegativeTimeout only when the timeout is
strictly negative; a zero timeout never produces it; and once every
required field is populated and the DNS checks cannot fire, NegativeTimeout
is reported exactly when the timeout is strictly negative. -/
theorem C6_negative_timeout_amended (c : extended.Config) :
    (extended.validate c = some .negativeTimeout → c.sessionTimeout < 0) ∧
    (c.sessionTimeout = 0 → extended.validate c ≠ some .negativeTimeout) ∧
    (extended.missingOf c = [] →
      (c.dnsName = "" ∨ (c.tlsCert = "" ∧ c.tlsKey = "" ∧ c.port = 443)) →
      (extended.validate c = some .negativeTimeout ↔ c.sessionTimeout < 0)) := by
  have key : extended.validate c = some .negativeTimeout → c.sessionTimeout < 0 := by
    rw [extended.validate]
    split_ifs with h1 h2 h3 h4 <;> intro hh <;> simp_all
  refine ⟨key, fun hz hv => by have := key hv; omega, ?_⟩
  intro hm hcross
  constructor
  · exact key
  · intro hneg
    rcases hcross with hd | ⟨h2, h3, hp⟩
    · rw [extended.validate_eq_cross c hm, if_neg (by simp [hd]),
        if_neg (by simp [hd]), if_pos hneg]
    · rw [extended.validate_eq_cross c hm, if_neg (by simp [h2, h3]),
        if_neg (by simp [hp]), if_pos hneg]

/-- C6 (amended) witness: a fully-populated config with no DNS name and
timeout -7, on which the equivalence yields NegativeTimeout. -/
theorem C6_negative_timeout_amended_witness :
    extended.validate
        { imageName := "ubuntu", jujuAddrs := ["a"], lxdSocketPath := "/s",
          port := 8080, profiles := ["default"], sessionTimeout := -7 } =
      some .negativeTimeout :=
  ((C6_negative_timeout_amended
      { imageName := "ubuntu", jujuAddrs := ["a"], lxdSocketPath := "/s",
        port := 8080, profiles := ["default"],
        sessionTimeout := -7 }).2.2 (by decide) (Or.inl (by decide))).2
    (by decide)

/-- C7: under the minimal schema, a config with image "ubuntu", one
controller address, a non-empty CA certificate, port 17070, and every
other field at its zero value passes validation, is promoted unchanged by
Read, and keeps Port = 17070. -/
theorem C7_minimal_scenario (cert : String) (c : minimal.Config)
    (hcert : cert ≠ "")
    (hc : c = { imageName := "ubuntu", jujuAddrs := ["10.0.0.1:17070"],
                jujuCert := cert, port := 17070 }) :
    minimal.validate c = none ∧ c.port = 17070 ∧
      ∀ path : String, minimal.Read path none none (.ok c) = (some c, none) := by
  subst hc
  have hl : minimal.missingList
      { imageName := "ubuntu", jujuAddrs := ["10.0.0.1:17070"],
        jujuCert := cert, port := 17070 } = [] := by
    simp [minimal.missingList, hcert]
  have hv : minimal.validate
      { imageName := "ubuntu", jujuAddrs := ["10.0.0.1:17070"],
        jujuCert := cert, port := 17070 } = none := by
    rw [minimal.validate, hl]
    simp
  refine ⟨hv, rfl, fun path => ?_⟩
  rw [minimal.Read]
  simp [hv]

/-- C7 witness: the scenario instantiated with a concrete PEM header as
the certificate. -/
theorem C7_minimal_scenario_witness :
    minimal.validate
        { imageName := "ubuntu", jujuAddrs := ["10.0.0.1:17070"],
          jujuCert := "-----BEGIN CERTIFICATE-----", port := 17070 } = none ∧
    (minimal.Config.port
        { imageName := "ubuntu", jujuAddrs := ["10.0.0.1:17070"],
          jujuCert := "-----BEGIN CERTIFICATE-----", port := 17070 }) =
      17070 :=
  ⟨(C7_minimal_scenario "-----BEGIN CERTIFICATE-----" _ (by decide) rfl).1,
   (C7_minimal_scenario "-----BEGIN CERTIFICATE-----" _ (by decide) rfl).2.1⟩

/-- C8: in both variants, Read fails with an IOFailure carrying the path
when the file cannot be opened or read, fails with a DecodeFailure carrying
the path when the contents cannot be parsed, and in every case returns a
config exactly when it returns no error. -/
theorem C8_read_errors :
    (∀ (path e : String) (re : Option String)
        (pr : Except String extended.Config),
      extended.Read path (some e) re pr = (none, some (.ioFailure path e))) ∧
    (∀ (path e : String) (pr : Except String extended.Config),
      extended.Read path none (some e) pr = (none, some (.ioFailure path e))) ∧
    (∀ path e : String,
      extended.Read path none none (.error e) =
        (none, some (.decodeFailure path e))) ∧
    (∀ (path : String) (oe re : Option String)
        (pr : Except String extended.Config),
      (extended.Read path oe re pr).1 = none ↔
        (extended.Read path oe re pr).2 ≠ none) ∧
    (∀ (path e : String) (re : Option String)
        (pr : Except String minimal.Config),
      minimal.Read path (some e) re pr = (none, some (.ioFailure path e))) ∧
    (∀ (path e : String) (pr : Except String minimal.Config),
      minimal.Read path none (some e) pr = (none, some (.ioFailure path e))) ∧
    (∀ path e : String,
      minimal.Read path none none (.error e) =
        (none, some (.decodeFailure path e))) ∧
    (∀ (path : String) (oe re : Option String)
        (pr : Except String minimal.Config),
      (minimal.Read path oe re pr).1 = none ↔
        (minimal.Read path oe re pr).2 ≠ none) := by
  refine ⟨fun _ _ _ _ => rfl, fun _ _ _ => rfl, fun _ _ => rfl, ?_,
    fun _ _ _ _ => rfl, fun _ _ _ => rfl, fun _ _ => rfl, ?_⟩
  · intro path oe re pr
    rcases oe with _ | e
    · rcases re with _ | e
      · rcases pr with e | c
        · simp [extended.Read]
        · rcases hv : extended.validate c with _ | verr <;>
            simp [extended.Read, hv]
      · simp [extended.Read]
    · simp [extended.Read]
  · intro path oe re pr
    rcases oe with _ | e
    · rcases re with _ | e
      · rcases pr with e | c
        · simp [minimal.Read]
        · rcases hv : minimal.validate c with _ | verr <;>
            simp [minimal.Read, hv]
      · simp [minimal.Read]
    · simp [minimal.Read]

/-- C9: NewServer hands the route-registration collaborator exactly the
controller addresses, the controller CA certificate, and the image name,
in that order; and a Params value is fully determined by those three
fields (the type exposes no other configuration). -/
theorem C9_server_handoff :
    (∀ (Handler : Type)
        (register : List String → String → String → Except String Handler)
        (p : jujushell.Params),
      jujushell.NewServer register p =
        register p.jujuAddrs p.jujuCert p.imageName) ∧
    (∀ p q : jujushell.Params, p.imageName = q.imageName →
      p.jujuAddrs = q.jujuAddrs → p.jujuCert = q.jujuCert → p = q) := by
  refine ⟨fun _ _ _ => rfl, ?_⟩
  intro p q h1 h2 h3
  cases p
  cases q
  simp_all

/-- C9 witness: the hand-off and the extensionality instantiated on
concrete parameter records. -/
theorem C9_server_handoff_witness :
    jujushell.NewServer (fun a c i => Except.ok (a, c, i))
        ⟨"img", ["addr"], "cert"⟩ =
      Except.ok ((["addr"] : List String), ("cert" : String),
        ("img" : String)) ∧
    (⟨"img", ["addr"], "cert"⟩ : jujushell.Params) =
      ⟨"img", ["addr"], "cert"⟩ :=
  ⟨C9_server_handoff.1 _ (fun a c i => Except.ok (a, c, i))
      ⟨"img", ["addr"], "cert"⟩,
   C9_server_handoff.2 ⟨"img", ["addr"], "cert"⟩ ⟨"img", ["addr"], "cert"⟩
      rfl rfl rfl⟩
